import Mathlib

/-!
Shallow embedding of the scraper subsystem of the JobPersonilisePortal
backend (JavaScript), covering:

* `JobPortalScraper` (src/backend/src/services/scrapers/JobPortalScraper.js):
  text cleaning, external-id generation, validation, save-with-upsert,
  fetch-with-retry;
* `OficinaDeTrabajoCeiScraper` (src/unnamed/part_002): the page loop of
  `scrape()` and relative-date parsing;
* `LinkedInJobsScraper` (src/backend/src/services/scrapers/LinkedInJobsScraper.js):
  relative-date parsing;
* `ScraperRegistry` (src/unnamed/part_001): instance creation;
* `ScraperService` (src/backend/src/services/scraperService.js): run
  bookkeeping, bounded history, statistics.

Modelling conventions: JavaScript objects with possibly-absent fields become
structures of `Option`-typed fields (`none` = the key is absent /
`undefined`); string truthiness (`""` falsy) is `truthy`; machine time is a
`Nat` of milliseconds passed explicitly wherever the code reads the clock;
`Date` values are `JsDate` (`invalid` models an Invalid Date, i.e. NaN
time value), with local time modelled as a fixed UTC offset so that
`setDate(getDate() - n)` subtracts exactly `n` days; the HTTP transport,
the HTML-extraction pipeline and the host's `new Date(string)` parser are
oracles passed as function arguments; the job store is an association list
keyed by `externalId`, and `updateOne(filter, {$set}, {upsert:true})` is
the total upsert operation of the persistence contract (§6 of the spec).
-/

set_option autoImplicit false

namespace JPPortal

/-- JS truthiness of an optional string: `undefined` and `""` are falsy. -/
def truthy : Option String → Bool
  | none => false
  | some s => s ≠ ""

/-- `x || d` for an optional string value (JS `||` default idiom). -/
def orDefaultStr (o : Option String) (d : String) : String :=
  match o with
  | none => d
  | some s => if s = "" then d else s

/-- `x || d` for an optional number (note: `0` is falsy in JS). -/
def orDefaultNat (o : Option Nat) (d : Nat) : Nat :=
  match o with
  | none => d
  | some n => if n = 0 then d else n

/-- A JS `Date`: either a valid instant (ms since epoch, may be negative)
or an Invalid Date (NaN time value). -/
inductive JsDate where
  | valid (ms : Int)
  | invalid
deriving Repr, DecidableEq

/-- One day in milliseconds. -/
def msPerDay : Int := 86400000

/-- One hour in milliseconds. -/
def msPerHour : Int := 3600000

/-- A raw or cleaned job object. Absent keys are `none`. -/
structure Job where
  title : Option String := none
  company : Option String := none
  location : Option String := none
  description : Option String := none
  source : Option String := none
  applyLink : Option String := none
  externalId : Option String := none
  tags : Option (List String) := none
  postedAt : Option JsDate := none
deriving Repr, DecidableEq

/-- Worker for `replaceWSRuns`; the flag records whether the previous
character belonged to a whitespace run (so the run emits `rep` once). -/
def replaceWSAux (rep : Char) : Bool → List Char → List Char
  | _, [] => []
  | prevWS, c :: cs =>
    if c.isWhitespace then
      if prevWS then replaceWSAux rep true cs
      else rep :: replaceWSAux rep true cs
    else c :: replaceWSAux rep false cs

/-- Replace every maximal run of whitespace characters by `rep`
(JS `replace(/\s+/g, rep)`; the whitespace classes agree on the
characters space, tab, CR, LF that `Char.isWhitespace` recognises). -/
def replaceWSRuns (rep : Char) (cs : List Char) : List Char :=
  replaceWSAux rep false cs

/-- JS `String.prototype.trim`: drop whitespace from both ends. -/
def jsTrim (s : String) : String :=
  String.mk
    (((s.data.dropWhile (·.isWhitespace)).reverse.dropWhile
        (·.isWhitespace)).reverse)

/-- `JobPortalScraper.cleanText`: falsy input gives `""`; otherwise collapse
whitespace runs to single spaces and trim.  (The source's second
`replace(/\n+/g,' ')` is a no-op: the first replacement already consumed
every newline, `\s` covering `\n`.) -/
def cleanText (text : Option String) : String :=
  match text with
  | none => ""
  | some s =>
    if s = "" then ""
    else jsTrim (String.mk (replaceWSRuns ' ' s.data))

/-- JS `toLowerCase` (per character; adequate for the slug inputs). -/
def jsToLower (s : String) : String := String.mk (s.data.map Char.toLower)

/-- `toLowerCase().replace(/\s+/g, '-')`, the slugging step of
`generateExternalId`. -/
def slugify (s : String) : String :=
  String.mk (replaceWSRuns '-' (jsToLower s).data)

/-- `s.substring(0, n)` (code points; the slugs here are within the BMP). -/
def jsSubstringTo (n : Nat) (s : String) : String := String.mk (s.data.take n)

/-- `JobPortalScraper.generateExternalId`: `{source-slug}-{company-slug(≤30)}-
{title-slug(≤50)}-{Date.now()}`; an absent (or empty-sluggged) title or
company contributes `"unknown"`. -/
def generateExternalId (cfgSource : String) (job : Job) (now : Nat) : String :=
  let src := slugify cfgSource
  let titleSlug :=
    match job.title with
    | none => "unknown"
    | some t =>
      let s := jsSubstringTo 50 (slugify t)
      if s = "" then "unknown" else s
  let companySlug :=
    match job.company with
    | none => "unknown"
    | some c =>
      let s := jsSubstringTo 30 (slugify c)
      if s = "" then "unknown" else s
  src ++ "-" ++ companySlug ++ "-" ++ titleSlug ++ "-" ++ toString now

/-- Field access used by `validateJobData`'s `required.filter(f => !job[f])`. -/
def jobField (job : Job) : String → Option String
  | "title" => job.title
  | "company" => job.company
  | "location" => job.location
  | "applyLink" => job.applyLink
  | "source" => job.source
  | _ => none

/-- The `missing` list of `JobPortalScraper.validateJobData`. -/
def missingFields (job : Job) : List String :=
  (["title", "company", "location", "applyLink", "source"]).filter
    (fun f => !(truthy (jobField job f)))

/-- `JobPortalScraper.validateJobData`: false iff some required field is
falsy. -/
def validateJobData (job : Job) : Bool :=
  if (missingFields job).length > 0 then false else true

/-- `JobPortalScraper.cleanJobData` (base-class version): trims and
collapses free-text fields, stamps the scraper's `source`, fills
`externalId` when falsy, keeps truthy `postedAt` (any `Date`, Invalid
included, is truthy), defaulting to the current time. -/
def cleanJobData (cfgSource : String) (now : Nat) (job : Job) : Job :=
  { title := some (cleanText job.title)
    company := some (cleanText job.company)
    location := some (cleanText job.location)
    description := some (cleanText job.description)
    source := some cfgSource
    applyLink := some (jsTrim (job.applyLink.getD ""))
    externalId := some (match job.externalId with
      | some e => if e = "" then generateExternalId cfgSource job now else e
      | none => generateExternalId cfgSource job now)
    tags := some ((job.tags.getD []).filter (fun t => t ≠ ""))
    postedAt := some (job.postedAt.getD (JsDate.valid (now : Int))) }

/-- Result counts of Mongo's `updateOne`. -/
structure UpdateResult where
  matchedCount : Nat
  upsertedCount : Nat
deriving Repr, DecidableEq

/-- The persisted job collection: association list keyed by `externalId`,
in insertion order. -/
abbrev JobStore := List (String × Job)

/-- `Job.updateOne({externalId}, {$set: fields}, {upsert:true})`: replace
the matched record's fields (the cleaned job carries every field, so the
`$set` is a full overwrite) or insert a new record. -/
def updateOneUpsert (store : JobStore) (extId : String) (fields : Job) :
    JobStore × UpdateResult :=
  if store.any (fun kv => kv.1 = extId) then
    (store.map (fun kv => if kv.1 = extId then (extId, fields) else kv),
     { matchedCount := 1, upsertedCount := 0 })
  else
    (store ++ [(extId, fields)], { matchedCount := 0, upsertedCount := 1 })

/-- The stats object returned by `saveJobs`.  `total` is `Option`-typed
because the empty-input early return `{saved:0, failed:0, duplicates:0}`
omits the `total` key. -/
structure SaveStats where
  saved : Nat
  duplicates : Nat
  failed : Nat
  total : Option Nat
deriving Repr, DecidableEq

/-- The per-job loop of `saveJobs`: clean, validate (invalid increments
`failed` and skips persistence), upsert (`upsertedCount > 0` counts as
saved, else `matchedCount > 0` as duplicate). -/
def saveJobsLoop (cfgSource : String) (now : Nat) :
    List Job → JobStore → Nat → Nat → Nat → JobStore × Nat × Nat × Nat
  | [], store, saved, duplicates, failed => (store, saved, duplicates, failed)
  | job :: rest, store, saved, duplicates, failed =>
    let cleaned := cleanJobData cfgSource now job
    if validateJobData cleaned then
      let su := updateOneUpsert store ((cleaned.externalId).getD "") cleaned
      if su.2.upsertedCount > 0 then
        saveJobsLoop cfgSource now rest su.1 (saved + 1) duplicates failed
      else if su.2.matchedCount > 0 then
        saveJobsLoop cfgSource now rest su.1 saved (duplicates + 1) failed
      else
        saveJobsLoop cfgSource now rest su.1 saved duplicates failed
    else
      saveJobsLoop cfgSource now rest store saved duplicates (failed + 1)

/-- `JobPortalScraper.saveJobs` on an explicit job list: empty input
returns all-zero counts without the `total` key and leaves the store
untouched; otherwise runs the per-job loop and reports
`total = jobs.length`. -/
def saveJobs (cfgSource : String) (now : Nat) (jobs : List Job)
    (store : JobStore) : JobStore × SaveStats :=
  if jobs.length = 0 then
    (store, { saved := 0, failed := 0, duplicates := 0, total := none })
  else
    let r := saveJobsLoop cfgSource now jobs store 0 0 0
    (r.1, { saved := r.2.1, duplicates := r.2.2.1, failed := r.2.2.2,
            total := some jobs.length })

/-- A falsy free-text field cleans to the empty string. -/
theorem cleanText_of_falsy (o : Option String) (h : truthy o = false) :
    cleanText o = "" := by
  cases o with
  | none => rfl
  | some s =>
    have hs : s = "" := by simpa [truthy] using h
    subst hs
    rfl

/-- A falsy `applyLink` cleans to the empty string. -/
theorem trim_of_falsy (o : Option String) (h : truthy o = false) :
    jsTrim (o.getD "") = "" := by
  cases o with
  | none => rfl
  | some s =>
    have hs : s = "" := by simpa [truthy] using h
    subst hs
    rfl

/-- Cleaning preserves a truthy `externalId`. -/
theorem cleanJobData_externalId (cfgSource : String) (now : Nat) (j : Job)
    (e : String) (hj : j.externalId = some e) (he : e ≠ "") :
    (cleanJobData cfgSource now j).externalId = some e := by
  simp [cleanJobData, hj, he]

/-- C2: for valid jobs carrying the same explicit `externalId`, two
`saveJobs` calls leave exactly one stored record, holding the second
call's cleaned fields, and the second call counts a duplicate, not a
save. -/
theorem saveJobs_same_externalId_dedup (cfgSource : String)
    (now1 now2 : Nat) (j1 j2 : Job) (e : String) (he : e ≠ "")
    (h1 : j1.externalId = some e) (h2 : j2.externalId = some e)
    (v1 : validateJobData (cleanJobData cfgSource now1 j1) = true)
    (v2 : validateJobData (cleanJobData cfgSource now2 j2) = true) :
    (saveJobs cfgSource now2 [j2] (saveJobs cfgSource now1 [j1] []).1).1
      = [(e, cleanJobData cfgSource now2 j2)] ∧
    (saveJobs cfgSource now2 [j2] (saveJobs cfgSource now1 [j1] []).1).2
      = { saved := 0, duplicates := 1, failed := 0, total := some 1 } := by
  have hc1 := cleanJobData_externalId cfgSource now1 j1 e h1 he
  have hc2 := cleanJobData_externalId cfgSource now2 j2 e h2 he
  have hx1 : (saveJobs cfgSource now1 [j1] []).1
      = [(e, cleanJobData cfgSource now1 j1)] := by
    simp [saveJobs, saveJobsLoop, v1, hc1, updateOneUpsert]
  rw [hx1]
  constructor <;>
    simp [saveJobs, saveJobsLoop, v2, hc2, updateOneUpsert]

/-- Concrete jobs sharing the explicit `externalId` `"ext-1"`. -/
def dupJob1 : Job :=
  { title := some "Dev", company := some "ACME", location := some "SCL",
    applyLink := some "http://a", source := some "S",
    externalId := some "ext-1" }

/-- Second write under the same `externalId`, with different fields. -/
def dupJob2 : Job :=
  { title := some "Dev II", company := some "ACME", location := some "SCL",
    applyLink := some "http://b", source := some "S",
    externalId := some "ext-1" }

/-- C2 witness: the dedup theorem applied at concrete jobs. -/
theorem saveJobs_same_externalId_dedup_witness :
    (saveJobs "S" 1 [dupJob2] (saveJobs "S" 0 [dupJob1] []).1).1
      = [("ext-1", cleanJobData "S" 1 dupJob2)] ∧
    (saveJobs "S" 1 [dupJob2] (saveJobs "S" 0 [dupJob1] []).1).2
      = { saved := 0, duplicates := 1, failed := 0, total := some 1 } :=
  saveJobs_same_externalId_dedup "S" 0 1 dupJob1 dupJob2 "ext-1"
    (by decide) rfl rfl (by decide) (by decide)

/-- A job providing every required field except `source`. -/
def jobMissingSource : Job :=
  { title := some "Backend Developer", company := some "ACME",
    location := some "Santiago",
    applyLink := some "https://example.com/job/1" }

/-- C6 counterexample: a job missing only `source` fails `validateJobData`
on the raw object, yet `saveJobs` stamps the scraper's source during
cleaning, counts it as saved (not failed), and does invoke the upsert:
one record lands in the store. -/
theorem saveJobs_missing_source_is_persisted :
    validateJobData jobMissingSource = false ∧
    (saveJobs "Unknown" 0 [jobMissingSource] []).2.failed = 0 ∧
    (saveJobs "Unknown" 0 [jobMissingSource] []).2.saved = 1 ∧
    (saveJobs "Unknown" 0 [jobMissingSource] []).1.length = 1 := by
  refine ⟨by decide, by decide, by decide, by decide⟩

/-- C6 amended: a job whose `title`, `company`, `location` or `applyLink`
is falsy fails `validateJobData`, and `saveJobs` counts it failed without
touching the store (the `source` field, by contrast, is stamped during
cleaning and so never causes a save failure). -/
theorem validateJobData_missing_core_field_fails_save
    (cfgSource : String) (now : Nat) (store : JobStore) (job : Job)
    (h : truthy job.title = false ∨ truthy job.company = false ∨
         truthy job.location = false ∨ truthy job.applyLink = false) :
    validateJobData job = false ∧
    saveJobs cfgSource now [job] store =
      (store, { saved := 0, duplicates := 0, failed := 1, total := some 1 }) := by
  have hm : ∃ f, f ∈ missingFields job := by
    rcases h with h | h | h | h
    · exact ⟨"title", by simp [missingFields, jobField, h]⟩
    · exact ⟨"company", by simp [missingFields, jobField, h]⟩
    · exact ⟨"location", by simp [missingFields, jobField, h]⟩
    · exact ⟨"applyLink", by simp [missingFields, jobField, h]⟩
  have hv : validateJobData job = false := by
    obtain ⟨f, hf⟩ := hm
    have hlen := List.length_pos_of_mem hf
    simp [validateJobData, hlen]
  have hmc : ∃ f, f ∈ missingFields (cleanJobData cfgSource now job) := by
    rcases h with h | h | h | h
    · exact ⟨"title", by
        simp [missingFields, jobField, cleanJobData, truthy,
              cleanText_of_falsy _ h]⟩
    · exact ⟨"company", by
        simp [missingFields, jobField, cleanJobData, truthy,
              cleanText_of_falsy _ h]⟩
    · exact ⟨"location", by
        simp [missingFields, jobField, cleanJobData, truthy,
              cleanText_of_falsy _ h]⟩
    · exact ⟨"applyLink", by
        simp [missingFields, jobField, cleanJobData, truthy,
              trim_of_falsy _ h]⟩
  have hcv : validateJobData (cleanJobData cfgSource now job) = false := by
    obtain ⟨f, hf⟩ := hmc
    have hlen := List.length_pos_of_mem hf
    simp [validateJobData, hlen]
  refine ⟨hv, ?_⟩
  simp [saveJobs, saveJobsLoop, hcv]

/-- A job with no `title`. -/
def jobNoTitle : Job :=
  { company := some "ACME", location := some "Santiago",
    applyLink := some "https://example.com/job/2", source := some "S" }

/-- C6 witness: the amended theorem applied to a job missing `title`. -/
theorem validateJobData_missing_core_field_fails_save_witness :
    validateJobData jobNoTitle = false ∧
    saveJobs "S" 0 [jobNoTitle] [] =
      ([], { saved := 0, duplicates := 0, failed := 1, total := some 1 }) :=
  validateJobData_missing_core_field_fails_save "S" 0 [] jobNoTitle
    (Or.inl rfl)

/-- Outcome of `fetchAndParse` plus `extractJobsFromPage` for one page:
either the extracted postings together with the per-listing extraction
errors pushed onto `this.errors`, or the message of an error that escaped
(e.g. retry exhaustion in `fetchPage`). -/
inductive PageOutcome where
  | ok (pageJobs : List Job) (pageErrs : List String)
  | err (msg : String)

/-- What the page loop of `OficinaDeTrabajoCeiScraper.scrape` produces:
accumulated jobs and errors, the pages attempted (in order), and the
message of the fatal error if one was thrown. -/
structure LoopOut where
  jobs : List Job
  errs : List String
  visited : List Nat
  fatal : Option String
deriving Repr, DecidableEq

/-- The `for (page = 1; page <= maxPages; page++)` loop of
`OficinaDeTrabajoCeiScraper.scrape`: fetch+extract each page, stop on a
fatal error or on a page with zero extracted listings, else append and
continue (the inter-page `delay` only spends time and is not modelled).
`fuel` is the number of page indices still allowed, so the loop runs
while `page ≤ maxPages`. -/
def scrapeLoop (fetch : Nat → PageOutcome) :
    Nat → Nat → List Job → List String → List Nat → LoopOut
  | _, 0, accJobs, accErrs, visited =>
    { jobs := accJobs, errs := accErrs, visited := visited, fatal := none }
  | page, fuel + 1, accJobs, accErrs, visited =>
    match fetch page with
    | .err msg =>
      { jobs := accJobs, errs := accErrs, visited := visited ++ [page],
        fatal := some msg }
    | .ok pageJobs pageErrs =>
      if pageJobs.length = 0 then
        { jobs := accJobs, errs := accErrs ++ pageErrs,
          visited := visited ++ [page], fatal := none }
      else
        scrapeLoop fetch (page + 1) fuel (accJobs ++ pageJobs)
          (accErrs ++ pageErrs) (visited ++ [page])

/-- The `{success, jobs, stats, errors}` payload returned by `scrape`. -/
structure ScrapeResult where
  success : Bool
  jobs : List Job
  stats : SaveStats
  errors : List String
deriving Repr, DecidableEq

/-- `OficinaDeTrabajoCeiScraper.scrape`: reset state, run the page loop
from page 1; on success persist via `saveJobs` and return its stats; on a
fatal error push the error, return the partial jobs with the literal
zeroed stats `{saved:0, duplicates:0, failed:0, total:0}`, and leave the
store untouched.  Also returns the resulting store and the page trace. -/
def scrapeCei (cfgSource : String) (fetch : Nat → PageOutcome)
    (maxPages : Nat) (now : Nat) (store : JobStore) :
    ScrapeResult × JobStore × List Nat :=
  let out := scrapeLoop fetch 1 maxPages [] [] []
  match out.fatal with
  | some msg =>
    ({ success := false, jobs := out.jobs,
       stats := { saved := 0, duplicates := 0, failed := 0, total := some 0 },
       errors := out.errs ++ [msg] }, store, out.visited)
  | none =>
    let r := saveJobs cfgSource now out.jobs store
    ({ success := true, jobs := out.jobs, stats := r.2,
       errors := out.errs }, r.1, out.visited)

/-- Result of one HTTP GET issued by `fetchPage`'s axios call. -/
inductive HttpResult where
  | ok (body : String)
  | err (msg : String)

/-- What `fetchPage` produces: the body or the final thrown error, plus
the sleeps performed between attempts and the attempts issued. -/
structure FetchOut where
  result : Except String String
  delays : List Nat
  attempts : List Nat
deriving Repr

/-- The message of the error thrown after retry exhaustion:
`Failed to fetch ${url} after ${maxRetries} attempts: ${lastError.message}`. -/
def fetchFailMsg (url : String) (maxRetries : Nat) (lastMsg : String) :
    String :=
  "Failed to fetch " ++ url ++ " after " ++ toString maxRetries ++
    " attempts: " ++ lastMsg

/-- The attempt loop of `JobPortalScraper.fetchPage`: for
`attempt = 1..maxRetries` issue a GET; on failure remember the error and,
when `attempt < maxRetries`, sleep `delayBetweenRequests * attempt`; when
the loop ends, throw the formatted fetch-failed error.  `fuel` counts the
attempts still allowed (`maxRetries - attempt + 1`); `lastMsg` is the
message of `lastError` (`""` standing for its initial `undefined`, never
read when `maxRetries ≥ 1`). -/
def fetchPageGo (get : Nat → HttpResult) (url : String)
    (maxRetries baseDelay : Nat) :
    Nat → Nat → List Nat → List Nat → String → FetchOut
  | _, 0, delays, attempts, lastMsg =>
    { result := .error (fetchFailMsg url maxRetries lastMsg),
      delays := delays, attempts := attempts }
  | attempt, fuel + 1, delays, attempts, _lastMsg =>
    match get attempt with
    | .ok body =>
      { result := .ok body, delays := delays,
        attempts := attempts ++ [attempt] }
    | .err m =>
      if attempt < maxRetries then
        fetchPageGo get url maxRetries baseDelay (attempt + 1) fuel
          (delays ++ [baseDelay * attempt]) (attempts ++ [attempt]) m
      else
        fetchPageGo get url maxRetries baseDelay (attempt + 1) fuel
          delays (attempts ++ [attempt]) m

/-- `JobPortalScraper.fetchPage url` over a transport oracle `get`. -/
def fetchPage (get : Nat → HttpResult) (url : String)
    (maxRetries baseDelay : Nat) : FetchOut :=
  fetchPageGo get url maxRetries baseDelay 1 maxRetries [] [] ""

/-- A fetch oracle whose every page carries zero listings. -/
def emptyPageFetch : Nat → PageOutcome := fun _ => .ok [] []

/-- C3 counterexample: with `maxPages = 1` and an empty first page,
`scrape()` succeeds with no jobs, but the stats object is the `total`-less
early return of `saveJobs`, not `{saved:0, duplicates:0, failed:0,
total:0}`. -/
theorem scrape_empty_page_total_field_missing :
    (scrapeCei "Oficina de Trabajo CEI" emptyPageFetch 1 0 []).1.success
        = true ∧
    (scrapeCei "Oficina de Trabajo CEI" emptyPageFetch 1 0 []).1.jobs = [] ∧
    (scrapeCei "Oficina de Trabajo CEI" emptyPageFetch 1 0 []).1.stats.total
        = none ∧
    (scrapeCei "Oficina de Trabajo CEI" emptyPageFetch 1 0 []).1.stats ≠
      { saved := 0, duplicates := 0, failed := 0, total := some 0 } := by
  refine ⟨by decide, by decide, by decide, by decide⟩

/-- C3 amended: with `maxPages = 1` and an empty first page, `scrape()`
attempts only page 1, leaves the store untouched and returns
`{success:true, jobs:[], stats:{saved:0, failed:0, duplicates:0}, errors:[]}`
— the zeroed stats without a `total` field. -/
theorem scrape_empty_page_success (cfgSource : String)
    (fetch : Nat → PageOutcome) (now : Nat) (store : JobStore)
    (h : fetch 1 = .ok [] []) :
    scrapeCei cfgSource fetch 1 now store =
      ({ success := true, jobs := [],
         stats := { saved := 0, failed := 0, duplicates := 0, total := none },
         errors := [] }, store, [1]) := by
  simp [scrapeCei, scrapeLoop, h, saveJobs]

/-- C3 witness: the amended theorem at the all-empty fetch oracle. -/
theorem scrape_empty_page_success_witness :
    scrapeCei "Oficina de Trabajo CEI" emptyPageFetch 1 0 [] =
      ({ success := true, jobs := [],
         stats := { saved := 0, failed := 0, duplicates := 0, total := none },
         errors := [] }, [], [1]) :=
  scrape_empty_page_success "Oficina de Trabajo CEI" emptyPageFetch 0 []
    rfl

/-- The page loop up to a fatally failing page `p`: every earlier page
from `i` on yields a nonempty listing batch, so the loop visits
`i, …, p`, accumulates those batches and their extraction errors, and
stops at `p` with the thrown message. -/
theorem scrapeLoop_fatal (fetch : Nat → PageOutcome)
    (jobsOn : Nat → List Job) (errsOn : Nat → List String)
    (p : Nat) (msg : String) (hfail : fetch p = .err msg) :
    ∀ (fuel i : Nat) (accJobs : List Job) (accErrs : List String)
      (visited : List Nat),
      i ≤ p → p < i + fuel →
      (∀ q, i ≤ q → q < p →
        fetch q = .ok (jobsOn q) (errsOn q) ∧ (jobsOn q).length ≠ 0) →
      scrapeLoop fetch i fuel accJobs accErrs visited =
        { jobs := accJobs ++ ((List.range' i (p - i)).map jobsOn).flatten,
          errs := accErrs ++ ((List.range' i (p - i)).map errsOn).flatten,
          visited := visited ++ List.range' i (p - i + 1),
          fatal := some msg } := by
  intro fuel
  induction fuel with
  | zero =>
    intro i _ _ _ h1 h2 _
    omega
  | succ fuel ih =>
    intro i accJobs accErrs visited h1 h2 hok
    by_cases hip : i = p
    · subst hip
      have h0 : i - i = 0 := by omega
      simp [scrapeLoop, hfail, h0, List.range'_succ]
    · have hilt : i < p := by omega
      obtain ⟨hq, hne⟩ := hok i (le_refl i) hilt
      have hrec := ih (i + 1) (accJobs ++ jobsOn i) (accErrs ++ errsOn i)
        (visited ++ [i]) (by omega) (by omega)
        (fun q hq1 hq2 => hok q (by omega) hq2)
      have hsplit : p - i = (p - (i + 1)) + 1 := by omega
      have hsplit2 : p - i + 1 = (p - (i + 1) + 1) + 1 := by omega
      simp only [scrapeLoop, hq, if_neg hne, hrec, hsplit, hsplit2,
        List.range'_succ, List.map_cons, List.flatten_cons,
        List.append_assoc, List.cons_append, List.singleton_append,
        List.nil_append]

/-- C4: an error thrown inside the page loop (page `p`, all earlier pages
nonempty) is caught by `scrape()`, which returns `success:false`, the
jobs accumulated from the pages before `p`, the literal zeroed stats, and
a nonempty error list ending in the thrown message; the store is never
touched during the run. -/
theorem scrape_fatal_returns_partial (cfgSource : String)
    (fetch : Nat → PageOutcome) (jobsOn : Nat → List Job)
    (errsOn : Nat → List String) (maxPages now : Nat) (store : JobStore)
    (p : Nat) (msg : String) (hp1 : 1 ≤ p) (hp2 : p ≤ maxPages)
    (hfail : fetch p = .err msg)
    (hok : ∀ q, 1 ≤ q → q < p →
      fetch q = .ok (jobsOn q) (errsOn q) ∧ (jobsOn q).length ≠ 0) :
    scrapeCei cfgSource fetch maxPages now store =
      ({ success := false,
         jobs := ((List.range' 1 (p - 1)).map jobsOn).flatten,
         stats := { saved := 0, duplicates := 0, failed := 0,
                    total := some 0 },
         errors := ((List.range' 1 (p - 1)).map errsOn).flatten ++ [msg] },
       store, List.range' 1 p) ∧
    (scrapeCei cfgSource fetch maxPages now store).1.errors ≠ [] := by
  have hl := scrapeLoop_fatal fetch jobsOn errsOn p msg hfail maxPages 1
    [] [] [] hp1 (by omega) (fun q h1 h2 => hok q h1 h2)
  have hp : p - 1 + 1 = p := by omega
  have hmain : scrapeCei cfgSource fetch maxPages now store =
      ({ success := false,
         jobs := ((List.range' 1 (p - 1)).map jobsOn).flatten,
         stats := { saved := 0, duplicates := 0, failed := 0,
                    total := some 0 },
         errors := ((List.range' 1 (p - 1)).map errsOn).flatten ++ [msg] },
       store, List.range' 1 p) := by
    simp [scrapeCei, hl, hp]
  refine ⟨hmain, ?_⟩
  rw [hmain]
  simp

/-- One extracted posting used by the C4 witness. -/
def witJob : Job := { title := some "T", company := some "C" }

/-- A fetch oracle: page 1 yields one posting, everything later fails. -/
def failingFetch : Nat → PageOutcome :=
  fun n => if n = 1 then .ok [witJob] [] else .err "network down"

/-- C4 witness: the fatal-error theorem at a concrete oracle failing on
page 2 of 3. -/
theorem scrape_fatal_returns_partial_witness :
    scrapeCei "S" failingFetch 3 0 [] =
      ({ success := false,
         jobs := ((List.range' 1 (2 - 1)).map (fun _ => [witJob])).flatten,
         stats := { saved := 0, duplicates := 0, failed := 0,
                    total := some 0 },
         errors := ((List.range' 1 (2 - 1)).map
             (fun _ => ([] : List String))).flatten ++ ["network down"] },
       [], List.range' 1 2) ∧
    (scrapeCei "S" failingFetch 3 0 []).1.errors ≠ [] :=
  scrape_fatal_returns_partial "S" failingFetch (fun _ => [witJob])
    (fun _ => []) 3 0 [] 2 "network down" (by decide) (by decide) rfl
    (by
      intro q h1 h2
      have hq : q = 1 := by omega
      subst hq
      exact ⟨rfl, by decide⟩)

/-- The attempt loop of `fetchPage` when every GET fails: starting at
attempt `i` with `maxRetries - i + 1` attempts left, it records a delay
`baseDelay * a` after each non-final attempt `a`, issues attempts
`i, …, maxRetries`, and ends with the formatted error carrying the last
attempt's message. -/
theorem fetchPageGo_all_fail (get : Nat → HttpResult)
    (msgOn : Nat → String) (url : String) (maxRetries baseDelay : Nat)
    (hfail : ∀ a, get a = .err (msgOn a)) :
    ∀ (fuel i : Nat) (delays attempts : List Nat) (lastMsg : String),
      i + fuel = maxRetries + 1 →
      fetchPageGo get url maxRetries baseDelay i fuel delays attempts
          lastMsg =
        { result := .error (fetchFailMsg url maxRetries
            (if 0 < fuel then msgOn maxRetries else lastMsg)),
          delays := delays ++
            (List.range' i (fuel - 1)).map (fun a => baseDelay * a),
          attempts := attempts ++ List.range' i fuel } := by
  intro fuel
  induction fuel with
  | zero =>
    intro i delays attempts lastMsg h
    simp [fetchPageGo]
  | succ fuel ih =>
    intro i delays attempts lastMsg h
    by_cases hf : 0 < fuel
    · have hi : i < maxRetries := by omega
      have hrec := ih (i + 1) (delays ++ [baseDelay * i]) (attempts ++ [i])
        (msgOn i) (by omega)
      have hsplit : fuel = (fuel - 1) + 1 := by omega
      have hr1 : List.range' i fuel = i :: List.range' (i + 1) (fuel - 1) := by
        conv_lhs => rw [hsplit]
        exact List.range'_succ i (fuel - 1) 1
      have hr2 : List.range' i (fuel + 1) = i :: List.range' (i + 1) fuel :=
        List.range'_succ i fuel 1
      simp [fetchPageGo, hfail i, hi, hrec, hf, hr1, hr2, Nat.succ_pos]
    · have hf0 : fuel = 0 := by omega
      subst hf0
      have hi : ¬ i < maxRetries := by omega
      have him : i = maxRetries := by omega
      have hrec := ih (i + 1) delays (attempts ++ [i]) (msgOn i) (by omega)
      simp [fetchPageGo, hfail i, hi, hrec, him, List.range'_succ]
      rw [hfail maxRetries]

/-- C5: when every GET on `url` fails, `fetchPage` makes exactly attempts
`1, …, maxRetries`, sleeps `baseDelay * attempt` after each attempt but
the last, and throws an error whose message spells out the URL and the
last underlying error's message. -/
theorem fetchPage_retry_exhaustion (get : Nat → HttpResult)
    (msgOn : Nat → String) (url : String) (maxRetries baseDelay : Nat)
    (hmr : 1 ≤ maxRetries) (hfail : ∀ a, get a = .err (msgOn a)) :
    fetchPage get url maxRetries baseDelay =
      { result := .error ("Failed to fetch " ++ url ++ " after " ++
          toString maxRetries ++ " attempts: " ++ msgOn maxRetries),
        delays := (List.range' 1 (maxRetries - 1)).map
          (fun a => baseDelay * a),
        attempts := List.range' 1 maxRetries } := by
  have h := fetchPageGo_all_fail get msgOn url maxRetries baseDelay hfail
    maxRetries 1 [] [] "" (by omega)
  rw [fetchPage, h]
  have hp : 0 < maxRetries := hmr
  simp [fetchFailMsg, hp]

/-- C5 witness: the retry-exhaustion theorem at a concrete transport that
always fails with `"boom"`. -/
theorem fetchPage_retry_exhaustion_witness :
    fetchPage (fun _ => .err "boom") "http://x" 3 100 =
      { result := .error ("Failed to fetch " ++ "http://x" ++ " after " ++
          toString 3 ++ " attempts: " ++ "boom"),
        delays := (List.range' 1 (3 - 1)).map (fun a => 100 * a),
        attempts := List.range' 1 3 } :=
  fetchPage_retry_exhaustion (fun _ => .err "boom") (fun _ => "boom")
    "http://x" 3 100 (by decide) (fun _ => rfl)

/-- Numeric value of a digit run (the `parseInt` of a matched `\d+`). -/
def digitsVal (ds : List Char) : Nat :=
  ds.foldl (fun a c => a * 10 + (c.toNat - '0'.toNat)) 0

/-- Greedy `\d+` at the front: the run's value and the rest, or `none`
when no digit starts here.  (No backtracking into the run is possible in
the patterns modelled: what follows `\d+` never matches a digit.) -/
def takeDigits (cs : List Char) : Option (Nat × List Char) :=
  let ds := cs.takeWhile (·.isDigit)
  if ds.length = 0 then none
  else some (digitsVal ds, cs.dropWhile (·.isDigit))

/-- Case-insensitive literal match at the front (a regex literal under
the `i` flag), returning the rest on success. -/
def stripLit : List Char → List Char → Option (List Char)
  | [], cs => some cs
  | _ :: _, [] => none
  | l :: ls, c :: cs =>
    if c.toLower = l.toLower then stripLit ls cs else none

/-- Greedy `\s*` (what follows it in the patterns modelled never matches
whitespace, so greediness is harmless). -/
def skipWS (cs : List Char) : List Char := cs.dropWhile (·.isWhitespace)

/-- Does `(day|día|days|días)\s*ago` match at the front?  The alternation
order is irrelevant here because only the match's existence and the
already-captured digits are used. -/
def ceiUnitThenAgo (cs : List Char) : Bool :=
  (["day", "día", "days", "días"]).any (fun u =>
    match stripLit u.data cs with
    | none => false
    | some rest =>
      match stripLit "ago".data (skipWS rest) with
      | none => false
      | some _ => true)

/-- Alternative `(\d+)\s*(day|día|days|días)\s*ago` of the CEI date
regex, tried at the current position: the captured number on success. -/
def ceiTryA (cs : List Char) : Option Nat :=
  match takeDigits cs with
  | none => none
  | some (n, rest) => if ceiUnitThenAgo (skipWS rest) then some n else none

/-- Search of `/(\d+)\s*(day|día|days|días)\s*ago|hace/i` over the
string, leftmost position first, alternative A before the bare `hace`:
`some (some n)` = A matched with group 1 = `n`; `some none` = only
`hace` matched (group 1 stays undefined); `none` = no match. -/
def ceiSearch : List Char → Option (Option Nat)
  | [] => none
  | c :: cs =>
    match ceiTryA (c :: cs) with
    | some n => some (some n)
    | none =>
      match stripLit "hace".data (c :: cs) with
      | some _ => some none
      | none => ceiSearch cs

/-- `OficinaDeTrabajoCeiScraper.extractPostedDate` on the extracted date
text: empty text gives the current time; a regex match with a captured
number `n` gives `setDate(getDate() - n)`, i.e. `n` days back (fixed
local offset); a match of the bare `hace` alternative leaves group 1
undefined, so `parseInt(undefined)` is NaN and the date becomes Invalid;
otherwise `new Date(dateText)` is consulted through the host parser
oracle `dateParse`, falling back to the current time. -/
def extractPostedDateCei (dateParse : String → Option Int)
    (dateText : String) (now : Int) : JsDate :=
  if dateText = "" then .valid now
  else
    match ceiSearch dateText.data with
    | some (some n) => .valid (now - (n : Int) * msPerDay)
    | some none => .invalid
    | none =>
      match dateParse dateText with
      | some ms => .valid ms
      | none => .valid now

/-- `(\d+)\s*lit` tried at the current position. -/
def tryNumLit (lit : List Char) (cs : List Char) : Option Nat :=
  match takeDigits cs with
  | none => none
  | some (n, rest) =>
    match stripLit lit (skipWS rest) with
    | none => none
    | some _ => some n

/-- Search of `/(\d+)\s*lit/i` over the string, leftmost first. -/
def searchNumLit (lit : List Char) : List Char → Option Nat
  | [] => none
  | c :: cs =>
    match tryNumLit lit (c :: cs) with
    | some n => some n
    | none => searchNumLit lit cs

/-- `LinkedInJobsScraper.parsePostedDate`: falsy text gives the current
time; then `hour`, `day`, `week`, `month` patterns are tried in order
(hours/days/weeks subtract exact spans under the fixed-offset model;
`setMonth` is the host-calendar oracle `subMonths`); no match gives the
current time. -/
def parsePostedDateLinkedIn (subMonths : Int → Nat → Int)
    (dateText : Option String) (now : Int) : JsDate :=
  match dateText with
  | none => .valid now
  | some s =>
    if s = "" then .valid now
    else
      match searchNumLit "hour".data s.data with
      | some n => .valid (now - (n : Int) * msPerHour)
      | none =>
        match searchNumLit "day".data s.data with
        | some n => .valid (now - (n : Int) * msPerDay)
        | none =>
          match searchNumLit "week".data s.data with
          | some n => .valid (now - (n : Int) * 7 * msPerDay)
          | none =>
            match searchNumLit "month".data s.data with
            | some n => .valid (subMonths now n)
            | none => .valid now

/-- C7 counterexample: neither date parser maps `"hace 5 días"` to five
days before now.  The CEI regex's `hace` alternative captures no number,
so `parseInt(undefined)` poisons the date to Invalid; the LinkedIn
parser has no Spanish pattern at all and falls through to the current
time. -/
theorem relative_date_hace_broken :
    extractPostedDateCei (fun _ => none) "hace 5 días" 0 = .invalid ∧
    parsePostedDateLinkedIn (fun n _ => n) (some "hace 5 días") 0
        = .valid 0 ∧
    extractPostedDateCei (fun _ => none) "hace 5 días" 0
        ≠ .valid (0 - 5 * msPerDay) ∧
    parsePostedDateLinkedIn (fun n _ => n) (some "hace 5 días") 0
        ≠ .valid (0 - 5 * msPerDay) := by
  refine ⟨by decide, by decide, by decide, by decide⟩

/-- C7 amended: `"3 days ago"` parses to exactly 3 days before now in
both parsers, and unparseable or absent text yields now; but
`"hace 5 días"` yields an Invalid Date in the CEI parser and the current
time in the LinkedIn parser, not 5 days before now. -/
theorem relative_date_parsing (dateParse : String → Option Int)
    (subMonths : Int → Nat → Int) (now : Int)
    (hdp : dateParse "soon" = none) :
    extractPostedDateCei dateParse "3 days ago" now
        = .valid (now - 3 * msPerDay) ∧
    parsePostedDateLinkedIn subMonths (some "3 days ago") now
        = .valid (now - 3 * msPerDay) ∧
    extractPostedDateCei dateParse "" now = .valid now ∧
    parsePostedDateLinkedIn subMonths none now = .valid now ∧
    extractPostedDateCei dateParse "soon" now = .valid now ∧
    parsePostedDateLinkedIn subMonths (some "soon") now = .valid now ∧
    extractPostedDateCei dateParse "hace 5 días" now = .invalid ∧
    parsePostedDateLinkedIn subMonths (some "hace 5 días") now
        = .valid now := by
  refine ⟨?_, ?_, rfl, rfl, ?_, rfl, rfl, rfl⟩
  · rfl
  · rfl
  · simp [extractPostedDateCei, hdp]
    rfl

/-- C7 witness: the amended theorem at a host parser that cannot parse
`"soon"`. -/
theorem relative_date_parsing_witness :
    extractPostedDateCei (fun _ => none) "3 days ago" 7
        = .valid (7 - 3 * msPerDay) ∧
    parsePostedDateLinkedIn (fun n _ => n) (some "3 days ago") 7
        = .valid (7 - 3 * msPerDay) ∧
    extractPostedDateCei (fun _ => none) "" 7 = .valid 7 ∧
    parsePostedDateLinkedIn (fun n _ => n) none 7 = .valid 7 ∧
    extractPostedDateCei (fun _ => none) "soon" 7 = .valid 7 ∧
    parsePostedDateLinkedIn (fun n _ => n) (some "soon") 7 = .valid 7 ∧
    extractPostedDateCei (fun _ => none) "hace 5 días" 7 = .invalid ∧
    parsePostedDateLinkedIn (fun n _ => n) (some "hace 5 días") 7
        = .valid 7 :=
  relative_date_parsing (fun _ => none) (fun n _ => n) 7 rfl

/-- One entry of `ScraperService.activeScrapes`. -/
structure ActiveInfo where
  scraperName : String
  startTime : Nat
  status : String
deriving Repr, DecidableEq

/-- One entry of `ScraperService.scrapeHistory`.  Success entries carry
`stats`/`errorCount` and no `error`; failure entries the opposite
(`none` = the key is absent). -/
structure HistoryEntry where
  id : String
  scraperName : String
  startTime : Nat
  endTime : Nat
  duration : Int
  success : Bool
  stats : Option SaveStats
  errorCount : Option Nat
  error : Option String
deriving Repr, DecidableEq

/-- The service's mutable state. -/
structure ServiceState where
  activeScrapes : List (String × ActiveInfo)
  scrapeHistory : List HistoryEntry
deriving Repr, DecidableEq

/-- The constructor's state: empty map, empty history. -/
def initialServiceState : ServiceState :=
  { activeScrapes := [], scrapeHistory := [] }

/-- `Map.set`: replace in place or append (insertion order kept). -/
def mapSet (m : List (String × ActiveInfo)) (k : String) (v : ActiveInfo) :
    List (String × ActiveInfo) :=
  if m.any (fun kv => kv.1 = k) then
    m.map (fun kv => if kv.1 = k then (k, v) else kv)
  else m ++ [(k, v)]

/-- `Map.delete`. -/
def mapDelete (m : List (String × ActiveInfo)) (k : String) :
    List (String × ActiveInfo) :=
  m.filter (fun kv => kv.1 ≠ k)

/-- `Map.get` (`undefined` = `none`). -/
def mapGet (m : List (String × ActiveInfo)) (k : String) :
    Option ActiveInfo :=
  (m.find? (fun kv => kv.1 = k)).map (·.2)

/-- What `await scraper.scrape(options)` did: resolved with a payload
(its success flag, stats and error count), or threw. -/
inductive RunOutcome where
  | ok (success : Bool) (stats : SaveStats) (errorCount : Nat)
  | err (msg : String)
deriving Repr, DecidableEq

/-- One `runScraper` invocation, reified: the generated scrape id, the
requested name, the registry's names at that moment, the scrape's
outcome, and the clock reading `now` (ms).  All `Date` reads inside one
invocation's synchronous tail see the same instant; the recorded fields
depend on no earlier instant because the active-map entry is deleted
before it is read back. -/
structure RunEvent where
  scrapeId : String
  scraperName : String
  availableScrapers : List String
  outcome : RunOutcome
  now : Nat
deriving Repr, DecidableEq

/-- The history entry built on the success path.  `startTime` and
`duration` read `activeScrapes` *after* the entry was deleted, so the
`|| new Date()` / `|| Date.now()` fallbacks apply. -/
def mkSuccessEntry (active2 : List (String × ActiveInfo)) (ev : RunEvent)
    (success : Bool) (stats : SaveStats) (errorCount : Nat) :
    HistoryEntry :=
  { id := ev.scrapeId
    scraperName := ev.scraperName
    startTime := ((mapGet active2 ev.scrapeId).map (·.startTime)).getD ev.now
    endTime := ev.now
    duration := (ev.now : Int) -
      ((((mapGet active2 ev.scrapeId).map (·.startTime)).getD ev.now : Nat) : Int)
    success := success
    stats := some stats
    errorCount := some errorCount
    error := none }

/-- The history entry built in the catch block: literal `duration: 0`,
no stats, no error count. -/
def mkErrEntry (ev : RunEvent) (msg : String) : HistoryEntry :=
  { id := ev.scrapeId
    scraperName := ev.scraperName
    startTime := ev.now
    endTime := ev.now
    duration := 0
    success := false
    stats := none
    errorCount := none
    error := some msg }

/-- `push` followed by the success path's `if (length > 100) shift()`. -/
def pushTrimmed (hist : List HistoryEntry) (entry : HistoryEntry) :
    List HistoryEntry :=
  let h1 := hist ++ [entry]
  if h1.length > 100 then h1.drop 1 else h1

/-- `ScraperService.runScraper` as a state transition: unknown names
throw before touching any state; otherwise the run is marked active,
resolved, removed from the active map, and recorded — trimmed to 100 on
the success path, but appended *without* the trim on the failure path
(the catch block has no shift). -/
def runScraperStep (st : ServiceState) (ev : RunEvent) :
    ServiceState × Except String HistoryEntry :=
  if ev.availableScrapers.contains ev.scraperName = false then
    (st, .error ("Unknown scraper: " ++ ev.scraperName))
  else
    let active1 := mapSet st.activeScrapes ev.scrapeId
      { scraperName := ev.scraperName, startTime := ev.now,
        status := "running" }
    let active2 := mapDelete active1 ev.scrapeId
    match ev.outcome with
    | .ok success stats errorCount =>
      let entry := mkSuccessEntry active2 ev success stats errorCount
      ({ activeScrapes := active2,
         scrapeHistory := pushTrimmed st.scrapeHistory entry }, .ok entry)
    | .err msg =>
      let entry := mkErrEntry ev msg
      ({ activeScrapes := active2,
         scrapeHistory := st.scrapeHistory ++ [entry] }, .error msg)

/-- A sequence of completed `runScraper` invocations. -/
def runEvents (st : ServiceState) (evs : List RunEvent) : ServiceState :=
  evs.foldl (fun s e => (runScraperStep s e).1) st

/-- The `averageDuration` component of `ScraperService.getStatistics`:
`Math.round(sum of durations / total)` for a nonempty history, else 0
(exact rational arithmetic; the JS float division agrees at the integer
values arising here). -/
def averageDuration (hist : List HistoryEntry) : Int :=
  if 0 < hist.length then
    round ((((hist.map (fun e => e.duration)).sum : Int) : ℚ) /
      (hist.length : ℚ))
  else 0

/-- JS `Array.prototype.slice(start)`: a negative start counts from the
end (clamped at 0), a non-negative one from the front. -/
def jsSlice {α : Type} (start : Int) (l : List α) : List α :=
  if start < 0 then l.drop (((l.length : Int) + start).toNat)
  else l.drop start.toNat

/-- `ScraperService.getScrapeHistory(limit)`:
`scrapeHistory.slice(-limit).reverse()`. -/
def getScrapeHistory (hist : List HistoryEntry) (limit : Nat) :
    List HistoryEntry :=
  (jsSlice (-(limit : Int)) hist).reverse

/-- The same call with the `limit` argument omitted (default 20). -/
def getScrapeHistoryDefault (hist : List HistoryEntry) :
    List HistoryEntry :=
  getScrapeHistory hist 20

/-- A failing run (known scraper name) appends one history entry with no
trim: the catch block lacks the `length > 100` shift. -/
theorem runStep_err_appends (st : ServiceState) (ev : RunEvent)
    (m : String) (hm : ev.outcome = .err m)
    (hn : ev.availableScrapers.contains ev.scraperName = true) :
    (runScraperStep st ev).1.scrapeHistory.length
      = st.scrapeHistory.length + 1 := by
  have hn' : ev.scraperName ∈ ev.availableScrapers := by simpa using hn
  simp [runScraperStep, hn', hm]

/-- Folding failing runs grows the history by one entry each. -/
theorem runEvents_all_err_length (evs : List RunEvent)
    (hall : ∀ ev ∈ evs, (∃ m, ev.outcome = .err m) ∧
      ev.availableScrapers.contains ev.scraperName = true) :
    ∀ st, (runEvents st evs).scrapeHistory.length
      = st.scrapeHistory.length + evs.length := by
  induction evs with
  | nil =>
    intro st
    simp [runEvents]
  | cons ev evs ih =>
    intro st
    obtain ⟨⟨m, hm⟩, hn⟩ := hall ev (List.mem_cons_self ev evs)
    have hstep := runStep_err_appends st ev m hm hn
    have hrest := ih (fun e he => hall e (List.mem_cons_of_mem ev he))
      ((runScraperStep st ev).1)
    simp only [runEvents, List.foldl_cons] at hrest ⊢
    rw [hrest, hstep, List.length_cons]
    omega

/-- A failing run request against the registered scrapers. -/
def failEvent (i : Nat) : RunEvent :=
  { scrapeId := "fail-" ++ toString i
    scraperName := "linkedin"
    availableScrapers := ["oficina-trabajo-cei", "linkedin"]
    outcome := .err "scrape failed"
    now := 0 }

/-- C1: after 101 consecutive failed runs the history holds 101 entries —
above the documented capacity of 100.  Only the success path trims; the
catch block pushes unconditionally. -/
theorem scrapeHistory_exceeds_capacity :
    (runEvents initialServiceState
        ((List.range 101).map failEvent)).scrapeHistory.length = 101 ∧
    100 < (runEvents initialServiceState
        ((List.range 101).map failEvent)).scrapeHistory.length := by
  have hall : ∀ ev ∈ (List.range 101).map failEvent,
      (∃ m, ev.outcome = .err m) ∧
      ev.availableScrapers.contains ev.scraperName = true := by
    intro ev hev
    simp only [List.mem_map] at hev
    obtain ⟨i, _, rfl⟩ := hev
    exact ⟨⟨"scrape failed", rfl⟩, rfl⟩
  have h := runEvents_all_err_length ((List.range 101).map failEvent) hall
    initialServiceState
  simp only [initialServiceState, List.length_nil, List.length_map,
    List.length_range, Nat.zero_add] at h
  refine ⟨h, ?_⟩
  simp only [initialServiceState]
  rw [h]
  omega

/-- Looking a key up right after deleting it yields `undefined`. -/
theorem mapGet_mapDelete (m : List (String × ActiveInfo)) (k : String) :
    mapGet (mapDelete m k) k = none := by
  rw [mapGet, Option.map_eq_none', List.find?_eq_none]
  intro kv hkv
  have h := (List.mem_filter.mp hkv).2
  simp at h ⊢
  exact h

/-- The duration-0 invariant of history entries (C8). -/
def entryOk (e : HistoryEntry) : Prop :=
  e.duration = 0 ∧ (e.success = true → e.startTime = e.endTime)

/-- Success entries satisfy the invariant: the startTime/duration reads
happen after the active-map delete, so both fall back to `now`. -/
theorem mkSuccessEntry_entryOk (m : List (String × ActiveInfo))
    (ev : RunEvent) (success : Bool) (stats : SaveStats)
    (errorCount : Nat) :
    entryOk (mkSuccessEntry (mapDelete m ev.scrapeId) ev success stats
      errorCount) := by
  constructor
  · simp [mkSuccessEntry, mapGet_mapDelete]
  · intro _
    simp [mkSuccessEntry, mapGet_mapDelete]

/-- Failure entries satisfy the invariant (literal `duration: 0`). -/
theorem mkErrEntry_entryOk (ev : RunEvent) (msg : String) :
    entryOk (mkErrEntry ev msg) :=
  ⟨rfl, fun _ => rfl⟩

/-- Membership after the push-and-trim of the success path. -/
theorem mem_pushTrimmed (hist : List HistoryEntry)
    (entry e : HistoryEntry) (he : e ∈ pushTrimmed hist entry) :
    e ∈ hist ∨ e = entry := by
  unfold pushTrimmed at he
  by_cases hl : (hist ++ [entry]).length > 100
  · rw [if_pos hl] at he
    have h := List.drop_subset 1 (hist ++ [entry]) he
    simpa using h
  · rw [if_neg hl] at he
    simpa using he

/-- One run step preserves the invariant on every history entry. -/
theorem runStep_preserves_entryOk (st : ServiceState) (ev : RunEvent)
    (h : ∀ e ∈ st.scrapeHistory, entryOk e) :
    ∀ e ∈ (runScraperStep st ev).1.scrapeHistory, entryOk e := by
  intro e he
  unfold runScraperStep at he
  by_cases hc : ev.availableScrapers.contains ev.scraperName = false
  · rw [if_pos hc] at he
    exact h e he
  · rw [if_neg hc] at he
    cases hout : ev.outcome with
    | ok success stats errorCount =>
      rw [hout] at he
      simp only [] at he
      rcases mem_pushTrimmed _ _ _ he with h1 | h1
      · exact h e h1
      · rw [h1]
        exact mkSuccessEntry_entryOk _ ev success stats errorCount
    | err msg =>
      rw [hout] at he
      simp only [List.mem_append, List.mem_singleton] at he
      rcases he with h1 | h1
      · exact h e h1
      · rw [h1]
        exact mkErrEntry_entryOk ev msg

/-- The invariant holds along any event sequence. -/
theorem runEvents_entryOk (evs : List RunEvent) :
    ∀ st, (∀ e ∈ st.scrapeHistory, entryOk e) →
      ∀ e ∈ (runEvents st evs).scrapeHistory, entryOk e := by
  induction evs with
  | nil =>
    intro st h
    simpa [runEvents] using h
  | cons ev evs ih =>
    intro st h
    simp only [runEvents, List.foldl_cons]
    exact ih _ (runStep_preserves_entryOk st ev h)

/-- C8: along every sequence of completed `runScraper` invocations, every
history entry has duration 0 (failure entries record the literal 0;
success entries read `activeScrapes` after their entry was deleted, so
the now-fallbacks cancel), a successful entry's startTime equals its
endTime, and `getStatistics`' averageDuration is 0. -/
theorem history_durations_always_zero (evs : List RunEvent) :
    (∀ e ∈ (runEvents initialServiceState evs).scrapeHistory,
        e.duration = 0 ∧ (e.success = true → e.startTime = e.endTime)) ∧
    averageDuration (runEvents initialServiceState evs).scrapeHistory
      = 0 := by
  have hOk := runEvents_entryOk evs initialServiceState
    (by intro e he; simp [initialServiceState] at he)
  refine ⟨fun e he => hOk e he, ?_⟩
  unfold averageDuration
  by_cases hl : 0 < (runEvents initialServiceState evs).scrapeHistory.length
  · rw [if_pos hl]
    have hsum : ((runEvents initialServiceState evs).scrapeHistory.map
        (fun e => e.duration)).sum = 0 := by
      apply List.sum_eq_zero
      intro x hx
      simp only [List.mem_map] at hx
      obtain ⟨e, he, rfl⟩ := hx
      exact (hOk e he).1
    rw [hsum]
    simp
  · rw [if_neg hl]

/-- A successful run request against the registered scrapers. -/
def okEvent : RunEvent :=
  { scrapeId := "run-1"
    scraperName := "linkedin"
    availableScrapers := ["oficina-trabajo-cei", "linkedin"]
    outcome := .ok true ⟨2, 1, 0, some 3⟩ 0
    now := 5 }

/-- C8 witness: the invariant theorem at a one-success-run sequence. -/
theorem history_durations_always_zero_witness :
    averageDuration (runEvents initialServiceState [okEvent]).scrapeHistory
      = 0 :=
  (history_durations_always_zero [okEvent]).2

/-- C10: `getScrapeHistory` returns, for `limit ≥ 1`, the most recent
`min limit length` entries newest-first; for `limit = 0`, `slice(-0)` is
`slice(0)`, so the entire history is returned newest-first; the omitted
argument defaults to 20. -/
theorem getScrapeHistory_slice (hist : List HistoryEntry) (limit : Nat) :
    (1 ≤ limit →
      getScrapeHistory hist limit =
        (hist.drop (hist.length - min limit hist.length)).reverse ∧
      (getScrapeHistory hist limit).length = min limit hist.length) ∧
    getScrapeHistory hist 0 = hist.reverse ∧
    getScrapeHistoryDefault hist = getScrapeHistory hist 20 := by
  refine ⟨?_, ?_, rfl⟩
  · intro hlim
    have hneg : (-(limit : Int)) < 0 := by omega
    have harg : (((hist.length : Int)) + (-(limit : Int))).toNat
        = hist.length - min limit hist.length := by omega
    constructor
    · unfold getScrapeHistory jsSlice
      rw [if_pos hneg, harg]
    · unfold getScrapeHistory jsSlice
      rw [if_pos hneg, harg]
      simp only [List.length_reverse, List.length_drop]
      omega
  · unfold getScrapeHistory jsSlice
    norm_num

/-- A minimal distinct history entry for the C10 witness. -/
def hEntry (i : Nat) : HistoryEntry :=
  { id := toString i, scraperName := "linkedin", startTime := 0,
    endTime := 0, duration := 0, success := true, stats := none,
    errorCount := none, error := none }

/-- C10 witness: the slice theorem at a three-entry history with
`limit = 2` and `limit = 0`. -/
theorem getScrapeHistory_slice_witness :
    getScrapeHistory [hEntry 0, hEntry 1, hEntry 2] 2 =
      ([hEntry 0, hEntry 1, hEntry 2].drop
        ([hEntry 0, hEntry 1, hEntry 2].length -
          min 2 [hEntry 0, hEntry 1, hEntry 2].length)).reverse ∧
    getScrapeHistory [hEntry 0, hEntry 1, hEntry 2] 0 =
      [hEntry 0, hEntry 1, hEntry 2].reverse :=
  ⟨((getScrapeHistory_slice [hEntry 0, hEntry 1, hEntry 2] 2).1
      (by decide)).1,
   (getScrapeHistory_slice [hEntry 0, hEntry 1, hEntry 2] 2).2.1⟩

/-- The two scraper classes registered by `registerDefaultScrapers`. -/
inductive ScraperKind where
  | oficinaDeTrabajoCei
  | linkedInJobs
deriving Repr, DecidableEq

/-- A JS config object passed to a scraper constructor (absent keys are
`none`). -/
structure RawConfig where
  baseUrl : Option String := none
  source : Option String := none
  timeout : Option Nat := none
  maxRetries : Option Nat := none
  delayBetweenRequests : Option Nat := none
  userAgent : Option String := none
deriving Repr, DecidableEq

/-- A constructed scraper object.  `instId` is the allocation counter
standing for the object's reference identity: every `new` yields a fresh
one. -/
structure ScraperInstance where
  instId : Nat
  baseUrl : String
  source : String
  timeout : Nat
  maxRetries : Nat
  delayBetweenRequests : Nat
  userAgent : String
  jobs : List Job
  errors : List String
deriving Repr, DecidableEq

/-- The `JobPortalScraper` constructor: `config.x || default` per field,
and fresh empty `jobs`/`errors` accumulators. -/
def mkJobPortalScraper (cfg : RawConfig) (freshId : Nat) :
    ScraperInstance :=
  { instId := freshId
    baseUrl := orDefaultStr cfg.baseUrl ""
    source := orDefaultStr cfg.source "Unknown"
    timeout := orDefaultNat cfg.timeout 10000
    maxRetries := orDefaultNat cfg.maxRetries 3
    delayBetweenRequests := orDefaultNat cfg.delayBetweenRequests 1000
    userAgent := orDefaultStr cfg.userAgent
      "Mozilla/5.0 (Windows NT 10.0; Win64; x64) AppleWebKit/537.36"
    jobs := []
    errors := [] }

/-- Object spread `{...base, ...cfg}`: keys present in `cfg` override. -/
def mergeSpread (base cfg : RawConfig) : RawConfig :=
  { baseUrl := cfg.baseUrl <|> base.baseUrl
    source := cfg.source <|> base.source
    timeout := cfg.timeout <|> base.timeout
    maxRetries := cfg.maxRetries <|> base.maxRetries
    delayBetweenRequests := cfg.delayBetweenRequests <|>
      base.delayBetweenRequests
    userAgent := cfg.userAgent <|> base.userAgent }

/-- The object the CEI subclass constructor passes to `super`: computed
site defaults, then `...config` spread over them. -/
def ceiCtorArg (cfg : RawConfig) : RawConfig :=
  mergeSpread
    { baseUrl := some (orDefaultStr cfg.baseUrl
        "https://www.oficinaempleo.cl")
      source := some "Oficina de Trabajo CEI"
      timeout := some (orDefaultNat cfg.timeout 15000)
      maxRetries := some (orDefaultNat cfg.maxRetries 3)
      delayBetweenRequests := some (orDefaultNat cfg.delayBetweenRequests
        2000)
      userAgent := none } cfg

/-- Likewise for the LinkedIn subclass constructor. -/
def linkedInCtorArg (cfg : RawConfig) : RawConfig :=
  mergeSpread
    { baseUrl := some (orDefaultStr cfg.baseUrl "https://www.linkedin.com")
      source := some "LinkedIn Jobs"
      timeout := some (orDefaultNat cfg.timeout 20000)
      maxRetries := some (orDefaultNat cfg.maxRetries 2)
      delayBetweenRequests := some (orDefaultNat cfg.delayBetweenRequests
        3000)
      userAgent := none } cfg

/-- `new ScraperClass(config)` for a registered class. -/
def constructScraper (kind : ScraperKind) (cfg : RawConfig)
    (freshId : Nat) : ScraperInstance :=
  match kind with
  | .oficinaDeTrabajoCei => mkJobPortalScraper (ceiCtorArg cfg) freshId
  | .linkedInJobs => mkJobPortalScraper (linkedInCtorArg cfg) freshId

/-- The registry contents after `registerDefaultScrapers`. -/
def defaultRegistry : List (String × ScraperKind) :=
  [("oficina-trabajo-cei", .oficinaDeTrabajoCei),
   ("linkedin", .linkedInJobs)]

/-- `ScraperRegistry.getScraper(name, config)`: throw with the available
names when unregistered, else construct a fresh instance (returning the
advanced allocation counter). -/
def getScraper (registry : List (String × ScraperKind)) (name : String)
    (cfg : RawConfig) (nextId : Nat) :
    Except String (ScraperInstance × Nat) :=
  match (registry.find? (fun kv => kv.1 = name)).map (·.2) with
  | none =>
    .error ("Scraper not found: " ++ name ++ ". Available scrapers: " ++
      String.intercalate ", " (registry.map (·.1)))
  | some kind => .ok (constructScraper kind cfg nextId, nextId + 1)

/-- Every constructed scraper starts with empty accumulators and carries
the allocation id it was built with. -/
theorem constructScraper_fresh (kind : ScraperKind) (cfg : RawConfig)
    (freshId : Nat) :
    (constructScraper kind cfg freshId).jobs = [] ∧
    (constructScraper kind cfg freshId).errors = [] ∧
    (constructScraper kind cfg freshId).instId = freshId := by
  cases kind <;> simp [constructScraper, mkJobPortalScraper]

/-- C9: for a registered name, `getScraper` returns an instance whose
`jobs` and `errors` start empty, and a second call returns a distinct
instance (different allocation identity), so two runs of the same scraper
never share accumulator state. -/
theorem getScraper_fresh_instance (registry : List (String × ScraperKind))
    (name : String) (cfg1 cfg2 : RawConfig) (nextId : Nat)
    (i1 : ScraperInstance) (n1 : Nat)
    (h1 : getScraper registry name cfg1 nextId = .ok (i1, n1)) :
    i1.jobs = [] ∧ i1.errors = [] ∧
    ∀ i2 n2, getScraper registry name cfg2 n1 = .ok (i2, n2) →
      i2.jobs = [] ∧ i2.errors = [] ∧ i1.instId ≠ i2.instId := by
  unfold getScraper at h1
  cases hf : (registry.find? (fun kv => kv.1 = name)).map (·.2) with
  | none =>
    rw [hf] at h1
    exact absurd h1 (by simp)
  | some kind =>
    rw [hf] at h1
    simp only [Except.ok.injEq, Prod.mk.injEq] at h1
    obtain ⟨hi1, hn1⟩ := h1
    obtain ⟨hj1, he1, hid1⟩ := constructScraper_fresh kind cfg1 nextId
    refine ⟨by rw [← hi1]; exact hj1, by rw [← hi1]; exact he1, ?_⟩
    intro i2 n2 h2
    unfold getScraper at h2
    rw [hf] at h2
    simp only [Except.ok.injEq, Prod.mk.injEq] at h2
    obtain ⟨hi2, _⟩ := h2
    obtain ⟨hj2, he2, hid2⟩ := constructScraper_fresh kind cfg2 n1
    refine ⟨by rw [← hi2]; exact hj2, by rw [← hi2]; exact he2, ?_⟩
    rw [← hi1, ← hi2, hid1, hid2, ← hn1]
    omega

/-- C9 witness: two consecutive `getScraper` calls for `"linkedin"` on
the default registry. -/
theorem getScraper_fresh_instance_witness :
    (constructScraper .linkedInJobs {} 0).jobs = [] ∧
    (constructScraper .linkedInJobs {} 0).errors = [] ∧
    ∀ i2 n2, getScraper defaultRegistry "linkedin" {} 1 = .ok (i2, n2) →
      i2.jobs = [] ∧ i2.errors = [] ∧
      (constructScraper .linkedInJobs {} 0).instId ≠ i2.instId :=
  getScraper_fresh_instance defaultRegistry "linkedin" {} {} 0
    (constructScraper .linkedInJobs {} 0) 1 rfl

end JPPortal
